import Mathlib

/-!
Verification development for the EFL Emotion Diary app (`app.py`).

The Python source is shallowly embedded over `Str := List Char`:

* `parse_feedback_response` embeds the regex section parser (lines 29-46 of
  `app.py`).  The three patterns
  `Corrected\s*Diary\s*:\s*(.*?)(?=Feedback\s*:|Korean\s*Summary\s*:|$)`,
  `Feedback\s*:\s*(.*?)(?=Korean\s*Summary\s*:|$)` and
  `Korean\s*Summary\s*:\s*(.*)$`, run with `re.IGNORECASE | re.DOTALL` under
  `re.search`, are embedded directly: `re.search` finds the leftmost position
  at which the label part matches (the tail of each pattern always succeeds,
  so the leftmost match of the whole pattern starts at the leftmost label
  match); the greedy `\s*` after the colon never backtracks because the lazy
  group followed by a `(?=...|$)` lookahead always succeeds; the lazy group
  stops at the first position where one of the lookahead alternatives
  matches; without `re.MULTILINE`, `$` matches at the end of the text or just
  before a trailing newline.  Case folding against the ASCII label letters
  is modelled exactly: an input character matches a lowercase pattern letter
  when its Unicode simple lowercase is that letter (`A`-`Z`, and also
  `İ` U+0130 for `i` and the Kelvin sign U+212A for `k`) or when it is one
  of sre's extra equivalences for that letter (`ı` U+0131 for `i`, `ſ`
  U+017F for `s`); `\s` is `pyIsSpace`, the Unicode white-space class
  Python uses.
* `save_diary_to_csv` / `load_diary_csv` embed the pandas CSV pipeline
  (lines 79-130).  The store file is `Option Str` (`none` = the path does
  not exist).  `to_csv(..., mode="a", index=False, encoding="utf-8-sig")`
  serialises with `csv.QUOTE_MINIMAL` and a `\n` terminator, and the
  `utf-8-sig` incremental encoder emits a BOM at the first write of every
  opened handle, hence on every append.  `read_csv` strips a leading BOM
  and tokenizes with the C parser's default dialect: a quote is recognized
  only at field start; inside a quoted field `""` is a literal quote and
  delimiters and line breaks are data; after the closing quote a delimiter
  or line break ends the field and any other character is appended to it
  (non-strict mode); a `"` inside an unquoted field is a literal character;
  `\n`, `\r` and `\r\n` all terminate records (a lone `\r` ends the
  record and the following `\n` then forms a blank line, which
  `skip_blank_lines=True` discards, as it does the empty tail after the
  final terminator); end of input inside an open quote is a parse error.
  Default NA tokens become missing values, and per-column dtype inference
  turns all-integer columns (within the int64 range) into integers, numeric
  columns into floats and boolean-token columns into booleans (a float cell
  records its source token: bit-exact IEEE values are irrelevant to every
  statement below, which only ever distinguishes string cells from
  non-string cells).  Degenerate shapes that pandas resolves with renaming
  or index-inference heuristics (empty or duplicate header names, ragged
  rows) are rejected with an error, as is empty content
  (`EmptyDataError`); every theorem below that touches a loaded file goes
  through a successful parse.
* `submit` embeds the button branch of `main` (lines 168-218): key check,
  empty-diary check, the `try`-block around `generate_feedback` and
  `save_diary_to_csv`, and the `except` branch message.  The remote model
  is an explicit parameter `gen`; `raw_response` (unused by the persistence
  path) is dropped.
-/

deriving instance DecidableEq for Except

namespace EmotionDiary

/-- Character lists standing for Python strings. -/
abbrev Str := List Char

/-- Coerce a Lean string literal to the `List Char` representation. -/
def str (s : String) : Str := s.data

/-! ### Python white-space and `str.strip` -/

/-- White space as Python's `\s` and `str.strip` see it: the ASCII white
space characters plus the Unicode white-space code points. -/
def pyIsSpace (c : Char) : Bool :=
  c = ' ' || c = '\t' || c = '\n' || c = '\r' || c = '\u000B' || c = '\u000C' ||
  c = '\u001C' || c = '\u001D' || c = '\u001E' || c = '\u001F' || c = '\u0085' ||
  c = '\u00A0' || c = '\u1680' ||
  ('\u2000' ≤ c && c ≤ '\u200A') ||
  c = '\u2028' || c = '\u2029' || c = '\u202F' || c = '\u205F' || c = '\u3000'

/-- Drop leading white space (`\s*` consumed greedily, and the left half of
`str.strip`). -/
def skipWS (s : Str) : Str := s.dropWhile pyIsSpace

/-- Python `str.strip`: drop white space from both ends. -/
def pyStrip (s : Str) : Str :=
  ((s.dropWhile pyIsSpace).reverse.dropWhile pyIsSpace).reverse

/-! ### The section-label patterns -/

/-- Unicode simple lowercase, restricted to the code points whose lowercase
is an ASCII letter — the only mappings that can make an input character
match an ASCII label letter: `A`-`Z`, `İ` (U+0130, lowercases to `i`) and
the Kelvin sign (U+212A, lowercases to `k`).  Everything else is left
unchanged (and then cannot equal a lowercase ASCII letter unless it already
is one). -/
def pyFoldToAscii (c : Char) : Char :=
  if 'A' ≤ c && c ≤ 'Z' then c.toLower
  else if c = '\u0130' then 'i'
  else if c = '\u212A' then 'k'
  else c

/-- One pattern character of a label (a lowercase ASCII letter or `:`)
matched against an input character under `re.IGNORECASE`: the input's
simple lowercase must equal the pattern character, or the pair must be one
of sre's extra equivalences (`ı` U+0131 for `i`, `ſ` U+017F for `s`). -/
def ciEqChar (a c : Char) : Bool :=
  pyFoldToAscii c = a || (a = 'i' && c = '\u0131') || (a = 's' && c = '\u017F')

/-- Match a literal word case-insensitively at the head of the input and
return the rest. -/
def matchCI : Str → Str → Option Str
  | [], s => some s
  | _ :: _, [] => none
  | a :: as, c :: cs => if ciEqChar a c then matchCI as cs else none

/-- Match a label pattern `W1\s*W2\s*...\s*:` at the head of the input and
return the rest after the colon. -/
def matchLabel : List Str → Str → Option Str
  | [], s =>
    match s with
    | ':' :: r => some r
    | _ => none
  | w :: ws, s =>
    match matchCI w s with
    | none => none
    | some r => matchLabel ws (skipWS r)

/-- Word lists of the three label patterns. -/
def correctedLabel : List Str := [str "corrected", str "diary"]

/-- Word list of the `Feedback\s*:` pattern. -/
def feedbackLabel : List Str := [str "feedback"]

/-- Word list of the `Korean\s*Summary\s*:` pattern. -/
def koreanLabel : List Str := [str "korean", str "summary"]

/-- Does a label pattern match at this position (a lookahead test)? -/
def labelAt (ws : List Str) (s : Str) : Bool := (matchLabel ws s).isSome

/-- The `$` lookahead alternative without `re.MULTILINE`: end of text, or
just before a trailing newline. -/
def dollarAt : Str → Bool
  | [] => true
  | ['\n'] => true
  | _ => false

/-- Leftmost occurrence scan of `re.search`: try the label at every
position, left to right. -/
def searchLabel (ws : List Str) : Str → Option Str
  | [] => matchLabel ws []
  | s@(_ :: t) =>
    match matchLabel ws s with
    | some r => some r
    | none => searchLabel ws t

/-- Lazy group `(.*?)(?=stop)`: accumulate characters up to the first
position where the lookahead fires. -/
def lazyUpto (stop : Str → Bool) : Str → Str
  | [] => []
  | s@(c :: t) => if stop s then [] else c :: lazyUpto stop t

/-- Lookahead of the `corrected_diary` pattern. -/
def stopCorrected (s : Str) : Bool :=
  labelAt feedbackLabel s || labelAt koreanLabel s || dollarAt s

/-- Lookahead of the `feedback_en` pattern. -/
def stopFeedback (s : Str) : Bool := labelAt koreanLabel s || dollarAt s

/-- One lazily delimited section: find the label, consume `\s*`, take the
lazy group, strip it ( `match.group(1).strip() if match else ""` ). -/
def extractField (ws : List Str) (stop : Str → Bool) (text : Str) : Str :=
  match searchLabel ws text with
  | none => []
  | some rest => pyStrip (lazyUpto stop (skipWS rest))

/-- The `summary_ko` pattern: greedy `(.*)$` takes the whole remainder. -/
def extractSummary (text : Str) : Str :=
  match searchLabel koreanLabel text with
  | none => []
  | some rest => pyStrip (skipWS rest)

/-- The three parsed sections of a model reply. -/
structure ParsedFeedback where
  corrected_diary : Str
  feedback_en : Str
  summary_ko : Str
deriving DecidableEq

/-- The three regex extractions, before the whole-text fallback. -/
def extractSections (text : Str) : ParsedFeedback :=
  { corrected_diary := extractField correctedLabel stopCorrected text
    feedback_en := extractField feedbackLabel stopFeedback text
    summary_ko := extractSummary text }

/-- Embedding of `parse_feedback_response` (app.py lines 29-46): the three
extractions, then the whole-text fallback when all three are empty. -/
def parse_feedback_response (text : Str) : ParsedFeedback :=
  let p := extractSections text
  if p.corrected_diary = [] ∧ p.feedback_en = [] ∧ p.summary_ko = [] then
    { p with corrected_diary := pyStrip text }
  else p

/-- Substring test used to state "field contains the label text". -/
def startsWith : Str → Str → Bool
  | [], _ => true
  | _ :: _, [] => false
  | a :: as, b :: bs => a = b && startsWith as bs

/-- Occurrence of `pat` anywhere in `s`, as an executable scan. -/
def occursInB (pat : Str) : Str → Bool
  | [] => startsWith pat []
  | s@(_ :: t) => startsWith pat s || occursInB pat t

/-! ### The record store: pandas CSV pipeline (app.py lines 79-130) -/

/-- The eight canonical column names, in their fixed order. -/
def expectedCols : List Str :=
  [str "timestamp", str "date", str "student_id", str "mood",
   str "original_diary", str "corrected_diary", str "feedback_en", str "summary_ko"]

/-- One diary record, the row passed to `save_diary_to_csv`. -/
structure DiaryRecord where
  timestamp : Str
  date : Str
  student_id : Str
  mood : Str
  original_diary : Str
  corrected_diary : Str
  feedback_en : Str
  summary_ko : Str
deriving DecidableEq

/-- The record's fields in column order. -/
def fieldsList (r : DiaryRecord) : List Str :=
  [r.timestamp, r.date, r.student_id, r.mood, r.original_diary,
   r.corrected_diary, r.feedback_en, r.summary_ko]

/-- Byte-order mark written by the `utf-8-sig` encoder at the start of every
opened write handle (so once per `to_csv(..., mode="a")` call). -/
def bom : Str := ['\uFEFF']

/-- `csv.QUOTE_MINIMAL`: quote a field iff it contains the delimiter, the
quote character, or a line-break character. -/
def needsQuote (f : Str) : Bool :=
  f.any (fun c => c = ',' || c = '"' || c = '\n' || c = '\r')

/-- Body of a quoted field: each `"` doubled. -/
def escBody (f : Str) : Str :=
  (f.map (fun c => if c = '"' then ['"', '"'] else [c])).flatten

/-- Serialise one field. -/
def serField (f : Str) : Str :=
  if needsQuote f then '"' :: (escBody f ++ ['"']) else f

/-- Serialise the fields of one row, comma separated. -/
def serRowBody : List Str → Str
  | [] => []
  | [f] => serField f
  | f :: fs => serField f ++ ',' :: serRowBody fs

/-- One CSV line: fields plus the `\n` terminator. -/
def serRow (fs : List Str) : Str := serRowBody fs ++ ['\n']

/-- The header line `to_csv` writes when the file did not exist. -/
def headerLine : Str := serRow expectedCols

/-- Embedding of `save_diary_to_csv` (app.py lines 79-107): the file content
after the call.  A missing file gets the header; an existing file is
appended to, never rewritten.  Each call opens the path with `utf-8-sig`,
so each call emits one BOM before what it writes. -/
def save_diary_to_csv (file : Option Str) (r : DiaryRecord) : Str :=
  match file with
  | none => bom ++ headerLine ++ serRow (fieldsList r)
  | some c => c ++ bom ++ serRow (fieldsList r)

/-- Drop the BOM at the very start of the file, as `read_csv` does. -/
def stripBOM : Str → Str
  | '\uFEFF' :: r => r
  | s => s

/-- Tokenizer state of the C parser: at the start of a field, inside an
unquoted field, inside a quoted field, or just after a quote inside a
quoted field. -/
inductive CsvState where
  | startField
  | inField
  | inQuoted
  | quoteInQuoted
deriving DecidableEq

/-- One pass of the pandas C tokenizer (default dialect, non-strict).  A
quote is recognized only at the start of a field; inside a quoted field
`""` is a literal quote and delimiters and line breaks are data; after the
closing quote `,` ends the field, a line break ends the record, and any
other character is appended to the field (non-strict mode); a `"` inside an
unquoted field is a literal character.  `\n` and `\r` both terminate
records (so `\r\n` terminates and leaves a blank line that the blank-line
skip below discards); a blank line is skipped (`skip_blank_lines=True`),
which also discards the empty tail after a final terminator.  End of input
inside an open quote is pandas' `EOF inside string` parse error.  `fld` and
`acc` are accumulated in reverse; `rec` holds the fields of the current
record most recent first. -/
def tokenizeAux (st : CsvState) (fld : Str) (rec : List Str) (acc : List (List Str)) :
    Str → Option (List (List Str))
  | [] =>
    match st with
    | .inQuoted => none
    | .startField =>
      if rec.isEmpty && fld.isEmpty then some acc.reverse
      else some ((fld.reverse :: rec).reverse :: acc).reverse
    | _ => some ((fld.reverse :: rec).reverse :: acc).reverse
  | c :: rest =>
    match st with
    | .startField =>
      if c = '"' then tokenizeAux .inQuoted fld rec acc rest
      else if c = ',' then tokenizeAux .startField [] (fld.reverse :: rec) acc rest
      else if c = '\n' || c = '\r' then
        if rec.isEmpty && fld.isEmpty then tokenizeAux .startField [] [] acc rest
        else tokenizeAux .startField [] [] ((fld.reverse :: rec).reverse :: acc) rest
      else tokenizeAux .inField (c :: fld) rec acc rest
    | .inField =>
      if c = ',' then tokenizeAux .startField [] (fld.reverse :: rec) acc rest
      else if c = '\n' || c = '\r' then
        tokenizeAux .startField [] [] ((fld.reverse :: rec).reverse :: acc) rest
      else tokenizeAux .inField (c :: fld) rec acc rest
    | .inQuoted =>
      if c = '"' then tokenizeAux .quoteInQuoted fld rec acc rest
      else tokenizeAux .inQuoted (c :: fld) rec acc rest
    | .quoteInQuoted =>
      if c = '"' then tokenizeAux .inQuoted ('"' :: fld) rec acc rest
      else if c = ',' then tokenizeAux .startField [] (fld.reverse :: rec) acc rest
      else if c = '\n' || c = '\r' then
        tokenizeAux .startField [] [] ((fld.reverse :: rec).reverse :: acc) rest
      else tokenizeAux .inField (c :: fld) rec acc rest

/-- Tokenize a whole file into records of field values. -/
def tokenizeCsv (s : Str) : Option (List (List Str)) :=
  tokenizeAux .startField [] [] [] s

/-- The default `na_values` of `read_csv`. -/
def naTokens : List Str :=
  [str "", str "#N/A", str "#N/A N/A", str "#NA", str "-1.#IND", str "-1.#QNAN",
   str "-NaN", str "-nan", str "1.#IND", str "1.#QNAN", str "<NA>", str "N/A",
   str "NA", str "NULL", str "NaN", str "None", str "n/a", str "nan", str "null"]

/-- Tokens the C parser converts to booleans. -/
def boolTokens : List Str :=
  [str "True", str "TRUE", str "true", str "False", str "FALSE", str "false"]

/-- ASCII digit test. -/
def isDigitB (c : Char) : Bool := '0' ≤ c && c ≤ '9'

/-- Drop one optional leading sign. -/
def dropSign : Str → Str
  | '+' :: r => r
  | '-' :: r => r
  | s => s

/-- Token the C parser converts to an integer: optional sign, one or more
digits (the parser tolerates surrounding white space, which callers strip
before testing). -/
def intLike (s : Str) : Bool :=
  !(dropSign s).isEmpty && (dropSign s).all isDigitB

/-- Optional exponent after the mantissa. -/
def mantissaTail : Str → Bool
  | [] => true
  | 'e' :: r => intLike r
  | 'E' :: r => intLike r
  | _ => false

/-- Token the C parser converts to a float: decimal mantissa with optional
sign, point and exponent, or an infinity word. -/
def floatLike (s : Str) : Bool :=
  let t := dropSign s
  decide (matchCI (str "inf") t = some []) ||
  decide (matchCI (str "infinity") t = some []) ||
  (match t.span isDigitB with
   | (ds, '.' :: r2) =>
     (match r2.span isDigitB with
      | (ds2, r3) => (!ds.isEmpty || !ds2.isEmpty) && mantissaTail r3)
   | (ds, rest) => !ds.isEmpty && mantissaTail rest)

/-- Numeric value of an ASCII digit. -/
def digitVal (c : Char) : Nat := c.toNat - 48

/-- Value of a digit string. -/
def natOfDigits (s : Str) : Nat := s.foldl (fun a c => a * 10 + digitVal c) 0

/-- Integer value of an int-like token. -/
def parseIntTok (s : Str) : Int :=
  match s with
  | '-' :: r => -(natOfDigits r : Int)
  | '+' :: r => (natOfDigits r : Int)
  | r => (natOfDigits r : Int)

/-- One loaded cell.  A float cell records its source token; the IEEE value
it denotes is never needed because every statement below only distinguishes
string cells from non-string cells. -/
inductive Cell where
  | nan
  | int (n : Int)
  | float (tok : Str)
  | bool (b : Bool)
  | str (s : Str)
deriving DecidableEq

/-- Is the token one of the default NA tokens? -/
def isNAtok (t : Str) : Bool := decide (t ∈ naTokens)

/-- Is the token a boolean token? -/
def isBoolTok (t : Str) : Bool := decide (t ∈ boolTokens)

/-- Does the integer value fit in int64 (beyond it the C parser falls back
to a float column)? -/
def int64Range (n : Int) : Bool :=
  decide (-(2 ^ 63) ≤ n) && decide (n < 2 ^ 63)

/-- Per-column dtype inference of `read_csv`: all-integer columns (within
the int64 range) without missing values become integers, numeric columns
become floats (missing as NaN), all-boolean columns become booleans,
anything else stays an object column whose missing entries are NaN. -/
def inferColumn (toks : List Str) : List Cell :=
  let present := toks.filter (fun t => !isNAtok t)
  if present.isEmpty then
    toks.map (fun _ => Cell.nan)
  else if present.all (fun t => intLike (pyStrip t) && int64Range (parseIntTok (pyStrip t)))
      && toks.all (fun t => !isNAtok t) then
    toks.map (fun t => Cell.int (parseIntTok (pyStrip t)))
  else if present.all (fun t => intLike (pyStrip t) || floatLike (pyStrip t)) then
    toks.map (fun t => if isNAtok t then Cell.nan else Cell.float (pyStrip t))
  else if present.all isBoolTok && toks.all (fun t => !isNAtok t) then
    toks.map (fun t => Cell.bool (decide (t ∈ [str "True", str "TRUE", str "true"])))
  else
    toks.map (fun t => if isNAtok t then Cell.nan else Cell.str t)

/-- A loaded data frame: column names and rows of cells. -/
structure Frame where
  cols : List Str
  rows : List (List Cell)
deriving DecidableEq

/-- Message of the `EmptyDataError` pandas raises on empty content. -/
def emptyDataMsg : Str := str "EmptyDataError: No columns to parse from file"

/-- Stand-in for the renaming and index-inference heuristics pandas applies
to degenerate shapes; outside the modelled regime. -/
def shapeErrMsg : Str := str "unsupported csv shape"

/-- Shapes the model accepts: non-empty distinct header names and rows as
wide as the header. -/
def wellShaped (cols : List Str) (rawRows : List (List Str)) : Bool :=
  !cols.any List.isEmpty && decide cols.Nodup &&
  rawRows.all (fun r => decide (r.length = cols.length))

/-- Message of the `ParserError` pandas raises when the input ends inside
an open quote. -/
def quoteErrMsg : Str := str "ParserError: EOF inside string"

/-- Embedding of `pd.read_csv` on well-formed single-header CSV content. -/
def read_csv (content : Str) : Except Str Frame :=
  match tokenizeCsv (stripBOM content) with
  | none => .error quoteErrMsg
  | some [] => .error emptyDataMsg
  | some (cols :: rawRows) =>
    if wellShaped cols rawRows then
      let colCells := (List.range cols.length).map
        (fun i => inferColumn (rawRows.map (fun r => r.getD i [])))
      .ok { cols := cols
            rows := (List.range rawRows.length).map
              (fun j => colCells.map (fun col => col.getD j Cell.nan)) }
    else .error shapeErrMsg

/-- The loop `for col in expected_cols: if col not in df.columns: df[col] = ""`:
missing expected columns are appended, filled with the empty string. -/
def addMissing (df : Frame) : Frame :=
  { cols := df.cols ++ expectedCols.filter (fun c => decide (c ∉ df.cols))
    rows := df.rows.map
      (fun r => r ++ (expectedCols.filter (fun c => decide (c ∉ df.cols))).map
        (fun _ => Cell.str [])) }

/-- Position of a column name. -/
def colIdx (cols : List Str) (name : Str) : Nat :=
  cols.findIdx (fun c => decide (c = name))

/-- The selection `df[expected_cols]`: keep exactly the named columns, in
the given order. -/
def selectCols (df : Frame) (names : List Str) : Frame :=
  { cols := names
    rows := df.rows.map (fun r => names.map (fun n => r.getD (colIdx df.cols n) Cell.nan)) }

/-- Embedding of `load_diary_csv` (app.py lines 110-130): empty shaped frame
for a missing file, otherwise read, synthesize missing columns, and select
the canonical columns in order. -/
def load_diary_csv (file : Option Str) : Except Str Frame :=
  match file with
  | none => .ok { cols := expectedCols, rows := [] }
  | some content => (read_csv content).map (fun df => selectCols (addMissing df) expectedCols)

/-- A field whose loaded value provably stays the very same string: not an
NA token, not integer-, float- or boolean-like. -/
def plainField (f : Str) : Bool :=
  !isNAtok f && !intLike (pyStrip f) && !floatLike (pyStrip f) && !isBoolTok f

/-! ### ISO dates (`datetime.date.isoformat` and parsing back) -/

/-- One decimal digit as a character. -/
def digitChar : Nat → Char
  | 0 => '0' | 1 => '1' | 2 => '2' | 3 => '3' | 4 => '4'
  | 5 => '5' | 6 => '6' | 7 => '7' | 8 => '8' | _ => '9'

/-- Two-digit zero-padded component. -/
def pad2 (n : Nat) : Str := [digitChar (n / 10 % 10), digitChar (n % 10)]

/-- Four-digit zero-padded year. -/
def pad4 (n : Nat) : Str :=
  [digitChar (n / 1000 % 10), digitChar (n / 100 % 10), digitChar (n / 10 % 10),
   digitChar (n % 10)]

/-- `date(y, m, d).isoformat()`, the string stored in the `date` column. -/
def isoDateStr (y m d : Nat) : Str := pad4 y ++ '-' :: (pad2 m ++ '-' :: pad2 d)

/-- Parse a `YYYY-MM-DD` string back to the calendar date. -/
def parseIsoDate (s : Str) : Option (Nat × Nat × Nat) :=
  match s with
  | [a, b, c, d, '-', e, f, '-', g, h] =>
    if ([a, b, c, d, e, f, g, h] : Str).all isDigitB then
      some (natOfDigits [a, b, c, d], natOfDigits [e, f], natOfDigits [g, h])
    else none
  | _ => none

/-! ### The submission flow (app.py lines 133-218) -/

/-- What the user sees after pressing the button. -/
inductive Outcome where
  | blockedNoKey (msg : Str)
  | blockedEmptyDiary (msg : Str)
  | genFailure (msg : Str)
  | saved (corrected feedback summary : Str)
deriving DecidableEq

/-- Error shown when the API key is missing. -/
def apiKeyMsg : Str :=
  str "Please enter your Gemini API key first. / 먼저 Gemini API 키를 입력해주세요."

/-- Error shown when the diary text is empty. -/
def emptyDiaryMsg : Str :=
  str "Please write your diary before submitting. / 일기를 먼저 작성해주세요."

/-- Head of the f-string in the `except` branch, up to the interpolated
exception text. -/
def genErrMsgHead : Str :=
  str "Could not generate feedback. Please check your API key/network. / 피드백 생성에 실패했습니다. API 키와 네트워크를 확인해주세요.\n\nError: "

/-- Embedding of `generate_feedback` (app.py lines 49-76): one remote call
`gen` (returning `response.text`, which may be `None`), then
`(response.text or "").strip()` and the parser.  The `raw_response` entry is
dropped: the persistence path never reads it. -/
def generate_feedback (gen : Str → Except Str (Option Str)) (diary : Str) :
    Except Str ParsedFeedback :=
  (gen diary).map (fun t => parse_feedback_response (pyStrip (t.getD [])))

/-- Embedding of the button branch of `main` (app.py lines 168-218): missing
key blocks, empty diary blocks, a raised remote call is caught and shown
with the exception text, and only a successful call reaches
`save_diary_to_csv`.  The remote call is the explicit parameter `gen`; the
returned option is the store file after the interaction. -/
def submit (apiKey diary studentInput mood timestamp selectedDate : Str)
    (gen : Str → Except Str (Option Str)) (store : Option Str) : Outcome × Option Str :=
  if apiKey = [] then (.blockedNoKey apiKeyMsg, store)
  else if pyStrip diary = [] then (.blockedEmptyDiary emptyDiaryMsg, store)
  else
    match generate_feedback gen (pyStrip diary) with
    | .error exc => (.genFailure (genErrMsgHead ++ exc), store)
    | .ok result =>
      (.saved result.corrected_diary result.feedback_en result.summary_ko,
       some (save_diary_to_csv store
         { timestamp := timestamp
           date := selectedDate
           student_id := if pyStrip studentInput = [] then str "Anonymous" else pyStrip studentInput
           mood := mood
           original_diary := pyStrip diary
           corrected_diary := result.corrected_diary
           feedback_en := result.feedback_en
           summary_ko := result.summary_ko }))

/-! ### Supporting lemmas: stripping -/

theorem dropWhile_self (p : Char → Bool) (l : Str) :
    (l.dropWhile p).dropWhile p = l.dropWhile p := by
  induction l with
  | nil => rfl
  | cons c t ih =>
    by_cases h : p c
    · simpa [List.dropWhile_cons, h] using ih
    · simp [List.dropWhile_cons, h]

theorem dropWhile_head_false (p : Char → Bool) (l : Str) (c : Char) (t : Str)
    (h : l.dropWhile p = c :: t) : p c = false := by
  induction l with
  | nil => simp at h
  | cons a r ih =>
    by_cases ha : p a
    · exact ih (by simpa [List.dropWhile_cons, ha] using h)
    · rw [List.dropWhile_cons, if_neg (by simp [ha])] at h
      cases h
      simpa using ha

theorem pyStrip_prefix_dropWhile (l : Str) :
    pyStrip l ++ ((l.dropWhile pyIsSpace).reverse.takeWhile pyIsSpace).reverse =
      l.dropWhile pyIsSpace := by
  have h : ((l.dropWhile pyIsSpace).reverse.takeWhile pyIsSpace) ++
      ((l.dropWhile pyIsSpace).reverse.dropWhile pyIsSpace) = (l.dropWhile pyIsSpace).reverse :=
    List.takeWhile_append_dropWhile pyIsSpace (l.dropWhile pyIsSpace).reverse
  have h2 := congrArg List.reverse h
  rw [List.reverse_append, List.reverse_reverse] at h2
  exact h2

theorem pyStrip_left_trimmed (l : Str) : (pyStrip l).dropWhile pyIsSpace = pyStrip l := by
  cases hs : pyStrip l with
  | nil => simp
  | cons c t =>
    have hpre := pyStrip_prefix_dropWhile l
    rw [hs] at hpre
    have hc : pyIsSpace c = false := by
      apply dropWhile_head_false pyIsSpace l c
        (t ++ ((l.dropWhile pyIsSpace).reverse.takeWhile pyIsSpace).reverse)
      rw [← List.cons_append]
      exact hpre.symm
    simp [List.dropWhile_cons, hc]

theorem pyStrip_idem (l : Str) : pyStrip (pyStrip l) = pyStrip l := by
  have h1 : (pyStrip l).dropWhile pyIsSpace = pyStrip l := pyStrip_left_trimmed l
  show (((pyStrip l).dropWhile pyIsSpace).reverse.dropWhile pyIsSpace).reverse = pyStrip l
  rw [h1]
  have h2 : (pyStrip l).reverse = (l.dropWhile pyIsSpace).reverse.dropWhile pyIsSpace := by
    simp [pyStrip]
  rw [h2, dropWhile_self, ← h2, List.reverse_reverse]

theorem pyStrip_infix (l : Str) : ∃ a b, a ++ pyStrip l ++ b = l := by
  refine ⟨l.takeWhile pyIsSpace,
    ((l.dropWhile pyIsSpace).reverse.takeWhile pyIsSpace).reverse, ?_⟩
  rw [List.append_assoc, pyStrip_prefix_dropWhile]
  exact List.takeWhile_append_dropWhile pyIsSpace l

/-! ### Supporting lemmas: substring occurrence -/

theorem startsWith_iff (pat s : Str) : startsWith pat s = true ↔ ∃ t, s = pat ++ t := by
  induction pat generalizing s with
  | nil => simp [startsWith]
  | cons a as ih =>
    cases s with
    | nil =>
      simp only [startsWith, Bool.false_eq_true, false_iff]
      rintro ⟨t, ht⟩
      simp at ht
    | cons b bs =>
      simp only [startsWith, Bool.and_eq_true, decide_eq_true_eq, ih, List.cons_append,
        List.cons.injEq]
      constructor
      · rintro ⟨rfl, t, rfl⟩
        exact ⟨t, rfl, rfl⟩
      · rintro ⟨t, rfl, rfl⟩
        exact ⟨rfl, t, rfl⟩

theorem occursInB_iff (pat s : Str) : occursInB pat s = true ↔ ∃ u v, s = u ++ (pat ++ v) := by
  induction s with
  | nil =>
    simp only [occursInB, startsWith_iff]
    constructor
    · rintro ⟨t, ht⟩
      exact ⟨[], t, ht⟩
    · rintro ⟨u, v, huv⟩
      rcases List.append_eq_nil.mp huv.symm with ⟨rfl, h2⟩
      exact ⟨v, by simpa using huv⟩
  | cons c t ih =>
    simp only [occursInB, Bool.or_eq_true, startsWith_iff, ih]
    constructor
    · rintro (⟨w, hw⟩ | ⟨u, v, huv⟩)
      · exact ⟨[], w, by simpa using hw⟩
      · exact ⟨c :: u, v, by simp [huv]⟩
    · rintro ⟨u, v, huv⟩
      cases u with
      | nil => exact Or.inl ⟨v, by simpa using huv⟩
      | cons a u2 =>
        rw [List.cons_append] at huv
        cases huv
        exact Or.inr ⟨u2, v, rfl⟩

theorem occursInB_nil_false (pat : Str) (h : pat ≠ []) : occursInB pat [] = false := by
  cases hp : occursInB pat []
  · rfl
  · rcases (occursInB_iff pat []).mp hp with ⟨u, v, huv⟩
    rcases List.append_eq_nil.mp huv.symm with ⟨rfl, h2⟩
    rcases List.append_eq_nil.mp h2 with ⟨hpat, rfl⟩
    exact absurd hpat h

/-! ### Supporting lemmas: the lazy group -/

theorem lazyUpto_decomp (stop : Str → Bool) (s : Str) :
    lazyUpto stop s ++ s.drop (lazyUpto stop s).length = s := by
  induction s with
  | nil => rfl
  | cons c t ih =>
    rw [lazyUpto]
    by_cases h : stop (c :: t)
    · simp [h]
    · simp only [if_neg h, List.cons_append, List.length_cons, List.drop_succ_cons]
      rw [ih]

theorem lazyUpto_no_stop (stop : Str → Bool) (s : Str) (q : Nat)
    (hq : q < (lazyUpto stop s).length) : stop (s.drop q) = false := by
  induction s generalizing q with
  | nil => simp [lazyUpto] at hq
  | cons c t ih =>
    rw [lazyUpto] at hq
    by_cases h : stop (c :: t)
    · simp [h] at hq
    · rw [if_neg h] at hq
      cases q with
      | zero => simpa using h
      | succ q2 =>
        rw [List.drop_succ_cons]
        exact ih q2 (by simpa using hq)

theorem lazyUpto_no_pat (stop : Str → Bool) (s0 pat : Str) (hpat : pat ≠ [])
    (hstop : ∀ z, stop (pat ++ z) = true) (u v : Str)
    (huv : lazyUpto stop s0 = u ++ (pat ++ v)) : False := by
  have hlen : u.length < (lazyUpto stop s0).length := by
    rw [huv]
    cases pat with
    | nil => exact absurd rfl hpat
    | cons pc pt => simp
  have hns := lazyUpto_no_stop stop s0 u.length hlen
  have hsplit := lazyUpto_decomp stop s0
  have hdrop : s0.drop u.length =
      pat ++ (v ++ s0.drop (lazyUpto stop s0).length) := by
    conv_lhs => rw [← hsplit]
    rw [huv, List.append_assoc, List.drop_left, List.append_assoc]
  rw [hdrop, hstop] at hns
  cases hns

/-! ### Supporting lemmas: label matching at a literal occurrence -/

theorem matchCI_append (w s r z : Str) (h : matchCI w s = some r) :
    matchCI w (s ++ z) = some (r ++ z) := by
  induction w generalizing s with
  | nil =>
    cases h
    rfl
  | cons a as ih =>
    cases s with
    | nil => simp [matchCI] at h
    | cons c cs =>
      simp only [matchCI, List.cons_append] at h ⊢
      by_cases hc : ciEqChar a c
      · rw [if_pos hc] at h ⊢
        exact ih cs h
      · rw [if_neg hc] at h
        cases h

theorem skipWS_cons_notspace (c : Char) (t : Str) (h : pyIsSpace c = false) :
    skipWS (c :: t) = c :: t := by
  simp [skipWS, List.dropWhile_cons, h]

theorem matchLabel_feedback_at (z : Str) :
    matchLabel feedbackLabel (str "Feedback:" ++ z) = some z := by
  have h1 : matchCI (str "feedback") (str "Feedback:") = some [':'] := by decide
  have h2 := matchCI_append _ _ _ z h1
  simp only [List.singleton_append] at h2
  simp [feedbackLabel, matchLabel, h2, skipWS_cons_notspace ':' z (by decide)]

theorem matchLabel_korean_at (z : Str) :
    matchLabel koreanLabel (str "Korean Summary:" ++ z) = some z := by
  have h1 : matchCI (str "korean") (str "Korean Summary:") = some (str " Summary:") := by decide
  have h2 := matchCI_append _ _ _ z h1
  have h3 : matchCI (str "summary") (str "Summary:") = some [':'] := by decide
  have h4 := matchCI_append _ _ _ z h3
  simp only [List.singleton_append] at h4
  have h5 : skipWS (str " Summary:" ++ z) = str "Summary:" ++ z := by
    rw [show str " Summary:" ++ z = ' ' :: (str "Summary:" ++ z) from rfl]
    rw [show str "Summary:" ++ z = 'S' :: (str "ummary:" ++ z) from rfl]
    simp [skipWS, List.dropWhile_cons, show pyIsSpace ' ' = true by decide,
      show pyIsSpace 'S' = false by decide]
  simp [koreanLabel, matchLabel, h2, h5, h4, skipWS_cons_notspace ':' z (by decide)]

theorem stopCorrected_at_feedback (z : Str) :
    stopCorrected (str "Feedback:" ++ z) = true := by
  simp [stopCorrected, labelAt, matchLabel_feedback_at]

theorem stopFeedback_at_korean (z : Str) :
    stopFeedback (str "Korean Summary:" ++ z) = true := by
  simp [stopFeedback, labelAt, matchLabel_korean_at]

/-! ### Supporting lemmas: the extracted fields -/

theorem extractField_stripped (ws : List Str) (stop : Str → Bool) (text : Str) :
    pyStrip (extractField ws stop text) = extractField ws stop text := by
  unfold extractField
  cases searchLabel ws text with
  | none => rfl
  | some rest => exact pyStrip_idem _

theorem extractSummary_stripped (text : Str) :
    pyStrip (extractSummary text) = extractSummary text := by
  unfold extractSummary
  cases searchLabel koreanLabel text with
  | none => rfl
  | some rest => exact pyStrip_idem _

theorem extractField_stop_free (ws : List Str) (stop : Str → Bool) (text pat : Str)
    (hpat : pat ≠ []) (hstop : ∀ z, stop (pat ++ z) = true) :
    occursInB pat (extractField ws stop text) = false := by
  unfold extractField
  cases hsl : searchLabel ws text with
  | none => exact occursInB_nil_false pat hpat
  | some rest =>
    cases hocc : occursInB pat (pyStrip (lazyUpto stop (skipWS rest)))
    · rfl
    · exfalso
      rcases (occursInB_iff _ _).mp hocc with ⟨u, v, huv⟩
      rcases pyStrip_infix (lazyUpto stop (skipWS rest)) with ⟨a, b, hab⟩
      have hg : lazyUpto stop (skipWS rest) = (a ++ u) ++ (pat ++ (v ++ b)) := by
        rw [← hab, huv]
        simp
      exact lazyUpto_no_pat stop (skipWS rest) pat hpat hstop (a ++ u) (v ++ b) hg

/-! ## Claim C2: fields trimmed and free of the following label -/

/-- C2 is refuted as stated: the text `"Corrected Diary:Feedback:Korean Summary:"`
contains all three literal labels in order (shown by the explicit
decomposition), yet all three extractions are empty, so the whole-text
fallback puts the entire text — including `"Feedback:"` — into
`corrected_diary`. -/
theorem c2_label_containment_counterexample :
    str "Corrected Diary:Feedback:Korean Summary:" =
      [] ++ str "Corrected Diary:" ++ [] ++ str "Feedback:" ++ [] ++
        str "Korean Summary:" ++ [] ∧
    occursInB (str "Feedback:")
      (parse_feedback_response
        (str "Corrected Diary:Feedback:Korean Summary:")).corrected_diary = true := by
  decide

/-- C2 (amended): for raw text containing the three literal labels in order,
provided not all three extracted sections are empty (otherwise the whole-text
fallback fires), `parse_feedback_response` returns every field trimmed of
surrounding white space, `corrected_diary` free of the literal `"Feedback:"`
and `feedback_en` free of the literal `"Korean Summary:"`. -/
theorem c2_fields_trimmed_label_free
    (text p1 p2 p3 p4 : Str)
    (_hdecomp : text = p1 ++ str "Corrected Diary:" ++ p2 ++ str "Feedback:" ++ p3 ++
      str "Korean Summary:" ++ p4)
    (hnf : ¬((extractSections text).corrected_diary = [] ∧
      (extractSections text).feedback_en = [] ∧ (extractSections text).summary_ko = [])) :
    (pyStrip (parse_feedback_response text).corrected_diary =
        (parse_feedback_response text).corrected_diary ∧
      pyStrip (parse_feedback_response text).feedback_en =
        (parse_feedback_response text).feedback_en ∧
      pyStrip (parse_feedback_response text).summary_ko =
        (parse_feedback_response text).summary_ko) ∧
    occursInB (str "Feedback:") (parse_feedback_response text).corrected_diary = false ∧
    occursInB (str "Korean Summary:") (parse_feedback_response text).feedback_en = false := by
  have hp : parse_feedback_response text = extractSections text := by
    unfold parse_feedback_response
    simp only [if_neg hnf]
  rw [hp]
  simp only [extractSections]
  refine ⟨⟨?_, ?_, ?_⟩, ?_, ?_⟩
  · exact extractField_stripped _ _ _
  · exact extractField_stripped _ _ _
  · exact extractSummary_stripped _
  · exact extractField_stop_free _ _ _ _ (by decide) stopCorrected_at_feedback
  · exact extractField_stop_free _ _ _ _ (by decide) stopFeedback_at_korean

/-- Witness for C2 (amended) at the concrete reply of the C3 scenario. -/
theorem c2_fields_trimmed_label_free_witness :
    (str "Corrected Diary: I am fine.\nFeedback: Good job!\nKorean Summary: 좋아요." =
      [] ++ str "Corrected Diary:" ++ str " I am fine.\n" ++ str "Feedback:" ++
        str " Good job!\n" ++ str "Korean Summary:" ++ str " 좋아요." ∧
      ¬((extractSections (str "Corrected Diary: I am fine.\nFeedback: Good job!\nKorean Summary: 좋아요.")).corrected_diary = [] ∧
        (extractSections (str "Corrected Diary: I am fine.\nFeedback: Good job!\nKorean Summary: 좋아요.")).feedback_en = [] ∧
        (extractSections (str "Corrected Diary: I am fine.\nFeedback: Good job!\nKorean Summary: 좋아요.")).summary_ko = [])) ∧
    ((pyStrip (parse_feedback_response (str "Corrected Diary: I am fine.\nFeedback: Good job!\nKorean Summary: 좋아요.")).corrected_diary =
        (parse_feedback_response (str "Corrected Diary: I am fine.\nFeedback: Good job!\nKorean Summary: 좋아요.")).corrected_diary ∧
      pyStrip (parse_feedback_response (str "Corrected Diary: I am fine.\nFeedback: Good job!\nKorean Summary: 좋아요.")).feedback_en =
        (parse_feedback_response (str "Corrected Diary: I am fine.\nFeedback: Good job!\nKorean Summary: 좋아요.")).feedback_en ∧
      pyStrip (parse_feedback_response (str "Corrected Diary: I am fine.\nFeedback: Good job!\nKorean Summary: 좋아요.")).summary_ko =
        (parse_feedback_response (str "Corrected Diary: I am fine.\nFeedback: Good job!\nKorean Summary: 좋아요.")).summary_ko) ∧
    occursInB (str "Feedback:")
      (parse_feedback_response (str "Corrected Diary: I am fine.\nFeedback: Good job!\nKorean Summary: 좋아요.")).corrected_diary = false ∧
    occursInB (str "Korean Summary:")
      (parse_feedback_response (str "Corrected Diary: I am fine.\nFeedback: Good job!\nKorean Summary: 좋아요.")).feedback_en = false) :=
  ⟨⟨by decide, by decide⟩,
    c2_fields_trimmed_label_free _ [] (str " I am fine.\n") (str " Good job!\n")
      (str " 좋아요.") (by decide) (by decide)⟩

/-! ## Claim C3: the concrete three-section scenario -/

/-- C3: on the scenario input the parser returns the three trimmed
sections exactly as the spec states. -/
theorem c3_scenario_parse :
    parse_feedback_response
        (str "Corrected Diary: I am fine.\nFeedback: Good job!\nKorean Summary: 좋아요.") =
      { corrected_diary := str "I am fine.", feedback_en := str "Good job!",
        summary_ko := str "좋아요." } := by
  decide

/-! ## Claim C4: text without labels, and the fallback policy -/

/-- C4 is refuted as stated: `"FEEDBACK: hi"` contains none of the three
literal labels, yet the case-insensitive pattern matches, so `feedback_en`
is `"hi"` rather than empty and `corrected_diary` is not the trimmed
input. -/
theorem c4_no_label_counterexample :
    occursInB (str "Corrected Diary:") (str "FEEDBACK: hi") = false ∧
    occursInB (str "Feedback:") (str "FEEDBACK: hi") = false ∧
    occursInB (str "Korean Summary:") (str "FEEDBACK: hi") = false ∧
    (parse_feedback_response (str "FEEDBACK: hi")).feedback_en = str "hi" ∧
    (parse_feedback_response (str "FEEDBACK: hi")).corrected_diary ≠
      pyStrip (str "FEEDBACK: hi") := by
  decide

/-- C4 (amended): for raw text in which none of the three case-insensitive
label patterns matches anywhere (`searchLabel` fails for all three),
`parse_feedback_response` returns the trimmed input as `corrected_diary` and
empty `feedback_en` and `summary_ko`; and in general the whole-text fallback
fires exactly when all three extractions are empty: if they are all empty the
returned `corrected_diary` is the trimmed input, otherwise the parse is the
extractions unchanged. -/
theorem c4_no_label_match_fallback (text : Str)
    (hc : searchLabel correctedLabel text = none)
    (hf : searchLabel feedbackLabel text = none)
    (hk : searchLabel koreanLabel text = none) :
    parse_feedback_response text =
      { corrected_diary := pyStrip text, feedback_en := [], summary_ko := [] } ∧
    (((extractSections text).corrected_diary = [] ∧ (extractSections text).feedback_en = [] ∧
        (extractSections text).summary_ko = []) →
      (parse_feedback_response text).corrected_diary = pyStrip text) ∧
    (¬((extractSections text).corrected_diary = [] ∧ (extractSections text).feedback_en = [] ∧
        (extractSections text).summary_ko = []) →
      parse_feedback_response text = extractSections text) := by
  have hsec : extractSections text =
      { corrected_diary := [], feedback_en := [], summary_ko := [] } := by
    unfold extractSections extractField extractSummary
    rw [hc, hf, hk]
  refine ⟨?_, ?_, ?_⟩
  · unfold parse_feedback_response
    rw [hsec]
    simp
  · intro hall
    unfold parse_feedback_response
    simp only [if_pos hall]
  · intro hnall
    unfold parse_feedback_response
    simp only [if_neg hnall]

/-- Witness for C4 (amended) at a label-free input. -/
theorem c4_no_label_match_fallback_witness :
    (searchLabel correctedLabel (str "hello world") = none ∧
      searchLabel feedbackLabel (str "hello world") = none ∧
      searchLabel koreanLabel (str "hello world") = none) ∧
    (parse_feedback_response (str "hello world") =
      { corrected_diary := pyStrip (str "hello world"), feedback_en := [],
        summary_ko := [] } ∧
    (((extractSections (str "hello world")).corrected_diary = [] ∧
        (extractSections (str "hello world")).feedback_en = [] ∧
        (extractSections (str "hello world")).summary_ko = []) →
      (parse_feedback_response (str "hello world")).corrected_diary =
        pyStrip (str "hello world")) ∧
    (¬((extractSections (str "hello world")).corrected_diary = [] ∧
        (extractSections (str "hello world")).feedback_en = [] ∧
        (extractSections (str "hello world")).summary_ko = []) →
      parse_feedback_response (str "hello world") = extractSections (str "hello world"))) :=
  ⟨⟨by decide, by decide, by decide⟩,
    c4_no_label_match_fallback _ (by decide) (by decide) (by decide)⟩

/-! ## Claim C6: loading a missing store -/

/-- C6: loading a non-existent store path yields an empty frame whose
columns are exactly the eight canonical names. -/
theorem c6_missing_store_empty_frame :
    load_diary_csv none = .ok { cols := expectedCols, rows := [] } := by
  rfl

/-! ## Claim C9: append-only writes and the header invariant -/

/-- Fold of `save_diary_to_csv` over a list of submissions, starting from a
given store state. -/
def saveMany (rs : List DiaryRecord) (file : Option Str) : Option Str :=
  rs.foldl (fun f r => some (save_diary_to_csv f r)) file

theorem saveMany_header (rs : List DiaryRecord) (rest : Str) :
    ∃ rest2, saveMany rs (some (bom ++ headerLine ++ rest)) =
      some (bom ++ headerLine ++ rest2) := by
  induction rs generalizing rest with
  | nil => exact ⟨rest, rfl⟩
  | cons r rs ih =>
    have hstep : save_diary_to_csv (some (bom ++ headerLine ++ rest)) r =
        bom ++ headerLine ++ (rest ++ (bom ++ serRow (fieldsList r))) := by
      simp [save_diary_to_csv]
    rcases ih (rest ++ (bom ++ serRow (fieldsList r))) with ⟨rest2, h2⟩
    refine ⟨rest2, ?_⟩
    show saveMany rs (some (save_diary_to_csv (some (bom ++ headerLine ++ rest)) r)) =
      some (bom ++ headerLine ++ rest2)
    rw [hstep]
    exact h2

/-- C9: `save_diary_to_csv` creates the file with the header line when the
path is absent, appends exactly one row (and one `utf-8-sig` BOM, no header
line) after the unchanged existing content otherwise, and every non-empty
sequence of saves starting from an absent file yields a non-empty file that
starts with the header line, while an empty sequence leaves no file. -/
theorem c9_append_only_header :
    (∀ r, save_diary_to_csv none r = bom ++ headerLine ++ serRow (fieldsList r)) ∧
    (∀ c r, save_diary_to_csv (some c) r = c ++ (bom ++ serRow (fieldsList r))) ∧
    saveMany [] none = none ∧
    (∀ rs, rs ≠ [] → ∃ rest, saveMany rs none = some (bom ++ headerLine ++ rest) ∧
      bom ++ headerLine ++ rest ≠ []) := by
  refine ⟨fun r => rfl, fun c r => by simp [save_diary_to_csv], rfl, ?_⟩
  intro rs hrs
  cases rs with
  | nil => exact absurd rfl hrs
  | cons r rs =>
    have h0 : saveMany (r :: rs) none = saveMany rs (some (bom ++ headerLine ++ serRow (fieldsList r))) := by
      simp [saveMany, save_diary_to_csv]
    rcases saveMany_header rs (serRow (fieldsList r)) with ⟨rest2, h2⟩
    exact ⟨rest2, h0.trans h2, by simp [bom]⟩

/-- A concrete record used by witnesses. -/
def sampleRecord : DiaryRecord :=
  { timestamp := str "t", date := str "d", student_id := str "s", mood := str "m",
    original_diary := str "o", corrected_diary := str "c", feedback_en := str "f",
    summary_ko := str "k" }

/-- Witness for C9 at one concrete record. -/
theorem c9_append_only_header_witness :
    ([sampleRecord] ≠ []) ∧
    (∃ rest, saveMany [sampleRecord] none = some (bom ++ headerLine ++ rest) ∧
      bom ++ headerLine ++ rest ≠ []) :=
  ⟨by decide, c9_append_only_header.2.2.2 [sampleRecord] (by decide)⟩

/-! ## Claim C7: an empty diary blocks the submission -/

/-- C7: when the diary text trims to empty, the store is unchanged, the
outcome does not depend on the remote model at all (so the remote call is
never invoked), and the user sees one of the two blocking messages. -/
theorem c7_empty_diary_blocks (apiKey diary studentInput mood timestamp selectedDate : Str)
    (gen gen2 : Str → Except Str (Option Str)) (store : Option Str)
    (h : pyStrip diary = []) :
    (submit apiKey diary studentInput mood timestamp selectedDate gen store).2 = store ∧
    submit apiKey diary studentInput mood timestamp selectedDate gen store =
      submit apiKey diary studentInput mood timestamp selectedDate gen2 store ∧
    ((submit apiKey diary studentInput mood timestamp selectedDate gen store).1 =
        .blockedNoKey apiKeyMsg ∨
      (submit apiKey diary studentInput mood timestamp selectedDate gen store).1 =
        .blockedEmptyDiary emptyDiaryMsg) := by
  by_cases hk : apiKey = []
  · simp [submit, hk, h]
  · simp [submit, hk, h]

/-- Witness for C7: a whitespace-only diary with two different remote
stubs. -/
theorem c7_empty_diary_blocks_witness :
    pyStrip (str "   ") = [] ∧
    ((submit (str "key") (str "   ") (str "Mina") (str "mood") (str "t") (str "d")
        (fun _ => .ok (some (str "reply"))) none).2 = none ∧
    submit (str "key") (str "   ") (str "Mina") (str "mood") (str "t") (str "d")
        (fun _ => .ok (some (str "reply"))) none =
      submit (str "key") (str "   ") (str "Mina") (str "mood") (str "t") (str "d")
        (fun _ => .error (str "boom")) none ∧
    ((submit (str "key") (str "   ") (str "Mina") (str "mood") (str "t") (str "d")
        (fun _ => .ok (some (str "reply"))) none).1 = .blockedNoKey apiKeyMsg ∨
      (submit (str "key") (str "   ") (str "Mina") (str "mood") (str "t") (str "d")
        (fun _ => .ok (some (str "reply"))) none).1 = .blockedEmptyDiary emptyDiaryMsg)) :=
  ⟨by decide,
    c7_empty_diary_blocks (str "key") (str "   ") (str "Mina") (str "mood") (str "t")
      (str "d") _ _ none (by decide)⟩

/-! ## Claim C8: a failing remote call is caught and nothing is persisted -/

/-- C8: when the remote call raises, the exception is caught, the outcome is
the bilingual error message with the raw exception text appended (so the
message contains it), and the store is unchanged. -/
theorem c8_gen_failure_caught (apiKey diary studentInput mood timestamp selectedDate exc : Str)
    (gen : Str → Except Str (Option Str)) (store : Option Str)
    (hk : apiKey ≠ []) (hd : pyStrip diary ≠ [])
    (hg : gen (pyStrip diary) = .error exc) :
    submit apiKey diary studentInput mood timestamp selectedDate gen store =
      (.genFailure (genErrMsgHead ++ exc), store) ∧
    (∃ u v, genErrMsgHead ++ exc = u ++ exc ++ v) := by
  constructor
  · simp [submit, hk, hd, generate_feedback, hg, Except.map]
  · exact ⟨genErrMsgHead, [], by simp⟩

/-- Witness for C8 at a concrete failing remote stub. -/
theorem c8_gen_failure_caught_witness :
    (str "key" ≠ [] ∧ pyStrip (str "I was happy.") ≠ [] ∧
      (fun _ : Str => (.error (str "quota") : Except Str (Option Str))) (pyStrip (str "I was happy.")) =
        .error (str "quota")) ∧
    (submit (str "key") (str "I was happy.") (str "Mina") (str "mood") (str "t") (str "d")
        (fun _ => .error (str "quota")) (some (str "old")) =
      (.genFailure (genErrMsgHead ++ str "quota"), some (str "old")) ∧
    (∃ u v, genErrMsgHead ++ str "quota" = u ++ str "quota" ++ v)) :=
  ⟨⟨by decide, by decide, rfl⟩,
    c8_gen_failure_caught (str "key") (str "I was happy.") (str "Mina") (str "mood")
      (str "t") (str "d") (str "quota") _ (some (str "old")) (by decide) (by decide) rfl⟩

/-! ### Supporting lemmas: the CSV tokenizer -/

theorem isEmpty_false_of_ne_nil {α : Type} (l : List α) (h : l ≠ []) :
    l.isEmpty = false := by
  cases l
  · exact absurd rfl h
  · rfl

theorem escBody_quote_cons (f : Str) : escBody ('"' :: f) = '"' :: '"' :: escBody f := by
  simp [escBody]

theorem escBody_cons_ne (c : Char) (h : c ≠ '"') (f : Str) :
    escBody (c :: f) = c :: escBody f := by
  simp [escBody, h]

theorem needsQuote_false_mem (f : Str) (hq : needsQuote f = false) (c : Char)
    (hc : c ∈ f) : c ≠ ',' ∧ c ≠ '"' ∧ c ≠ '\n' ∧ c ≠ '\r' := by
  have h := List.any_eq_false.mp hq c hc
  simp only [Bool.or_eq_true, decide_eq_true_eq, not_or] at h
  obtain ⟨⟨⟨h1, h2⟩, h3⟩, h4⟩ := h
  exact ⟨h1, h2, h3, h4⟩

theorem tok_start_quote (fld : Str) (rec : List Str) (acc : List (List Str)) (rest : Str) :
    tokenizeAux .startField fld rec acc ('"' :: rest) =
      tokenizeAux .inQuoted fld rec acc rest := rfl

theorem tok_start_comma (fld : Str) (rec : List Str) (acc : List (List Str)) (rest : Str) :
    tokenizeAux .startField fld rec acc (',' :: rest) =
      tokenizeAux .startField [] (fld.reverse :: rec) acc rest := rfl

theorem tok_start_newline_emit (rec : List Str) (hrec : rec ≠ [])
    (acc : List (List Str)) (rest : Str) :
    tokenizeAux .startField [] rec acc ('\n' :: rest) =
      tokenizeAux .startField [] [] ((([] : Str) :: rec).reverse :: acc) rest := by
  cases rec with
  | nil => exact absurd rfl hrec
  | cons r rs => rfl

theorem tok_start_char (c : Char) (h1 : c ≠ '"') (h2 : c ≠ ',') (h3 : c ≠ '\n')
    (h4 : c ≠ '\r') (fld : Str) (rec : List Str) (acc : List (List Str)) (rest : Str) :
    tokenizeAux .startField fld rec acc (c :: rest) =
      tokenizeAux .inField (c :: fld) rec acc rest := by
  simp only [tokenizeAux]
  rw [if_neg h1, if_neg h2, if_neg (by simp [h3, h4])]

theorem tok_inField_comma (fld : Str) (rec : List Str) (acc : List (List Str)) (rest : Str) :
    tokenizeAux .inField fld rec acc (',' :: rest) =
      tokenizeAux .startField [] (fld.reverse :: rec) acc rest := rfl

theorem tok_inField_newline (fld : Str) (rec : List Str) (acc : List (List Str)) (rest : Str) :
    tokenizeAux .inField fld rec acc ('\n' :: rest) =
      tokenizeAux .startField [] [] ((fld.reverse :: rec).reverse :: acc) rest := rfl

theorem tok_inField_char (c : Char) (h1 : c ≠ ',') (h2 : c ≠ '\n') (h3 : c ≠ '\r')
    (fld : Str) (rec : List Str) (acc : List (List Str)) (rest : Str) :
    tokenizeAux .inField fld rec acc (c :: rest) =
      tokenizeAux .inField (c :: fld) rec acc rest := by
  simp only [tokenizeAux]
  rw [if_neg h1, if_neg (by simp [h2, h3])]

theorem tok_inQuoted_quote (fld : Str) (rec : List Str) (acc : List (List Str)) (rest : Str) :
    tokenizeAux .inQuoted fld rec acc ('"' :: rest) =
      tokenizeAux .quoteInQuoted fld rec acc rest := rfl

theorem tok_inQuoted_char (c : Char) (h : c ≠ '"') (fld : Str) (rec : List Str)
    (acc : List (List Str)) (rest : Str) :
    tokenizeAux .inQuoted fld rec acc (c :: rest) =
      tokenizeAux .inQuoted (c :: fld) rec acc rest := by
  simp only [tokenizeAux]
  rw [if_neg h]

theorem tok_qiq_quote (fld : Str) (rec : List Str) (acc : List (List Str)) (rest : Str) :
    tokenizeAux .quoteInQuoted fld rec acc ('"' :: rest) =
      tokenizeAux .inQuoted ('"' :: fld) rec acc rest := rfl

theorem tok_qiq_comma (fld : Str) (rec : List Str) (acc : List (List Str)) (rest : Str) :
    tokenizeAux .quoteInQuoted fld rec acc (',' :: rest) =
      tokenizeAux .startField [] (fld.reverse :: rec) acc rest := rfl

theorem tok_qiq_newline (fld : Str) (rec : List Str) (acc : List (List Str)) (rest : Str) :
    tokenizeAux .quoteInQuoted fld rec acc ('\n' :: rest) =
      tokenizeAux .startField [] [] ((fld.reverse :: rec).reverse :: acc) rest := rfl

theorem tok_inQuoted_escBody (f fld : Str) (rec : List Str) (acc : List (List Str))
    (rest : Str) :
    tokenizeAux .inQuoted fld rec acc (escBody f ++ rest) =
      tokenizeAux .inQuoted (f.reverse ++ fld) rec acc rest := by
  induction f generalizing fld with
  | nil => simp [escBody]
  | cons c f ih =>
    by_cases hc : c = '"'
    · subst hc
      rw [escBody_quote_cons, List.cons_append, List.cons_append,
        tok_inQuoted_quote, tok_qiq_quote, ih]
      simp
    · rw [escBody_cons_ne c hc, List.cons_append, tok_inQuoted_char c hc, ih]
      simp

theorem tok_inField_plain (xs : Str) (h : ∀ c ∈ xs, c ≠ ',' ∧ c ≠ '\n' ∧ c ≠ '\r')
    (fld : Str) (rec : List Str) (acc : List (List Str)) (rest : Str) :
    tokenizeAux .inField fld rec acc (xs ++ rest) =
      tokenizeAux .inField (xs.reverse ++ fld) rec acc rest := by
  induction xs generalizing fld with
  | nil => simp
  | cons c xs ih =>
    have hc := h c (by simp)
    rw [List.cons_append, tok_inField_char c hc.1 hc.2.1 hc.2.2]
    rw [ih (fun a ha => h a (by simp [ha]))]
    simp

theorem tok_serField_comma (f : Str) (rec : List Str) (acc : List (List Str)) (rest : Str) :
    tokenizeAux .startField [] rec acc (serField f ++ ',' :: rest) =
      tokenizeAux .startField [] (f :: rec) acc rest := by
  by_cases hq : needsQuote f = true
  · simp only [serField, if_pos hq, List.cons_append, List.append_assoc,
      List.singleton_append]
    rw [tok_start_quote, tok_inQuoted_escBody, tok_inQuoted_quote, List.nil_append,
      tok_qiq_comma]
    simp
  · have hq2 : needsQuote f = false := by
      cases hnq : needsQuote f
      · rfl
      · exact absurd hnq hq
    simp only [serField, hq2, Bool.false_eq_true, if_false]
    cases f with
    | nil =>
      rw [List.nil_append, tok_start_comma]
      rfl
    | cons c t =>
      have hmem := needsQuote_false_mem _ hq2
      have hc := hmem c (by simp)
      rw [List.cons_append, tok_start_char c hc.2.1 hc.1 hc.2.2.1 hc.2.2.2]
      rw [tok_inField_plain t (fun a ha => ⟨(hmem a (by simp [ha])).1,
        (hmem a (by simp [ha])).2.2.1, (hmem a (by simp [ha])).2.2.2⟩)]
      rw [tok_inField_comma]
      simp

theorem tok_serField_newline (f : Str) (rec : List Str) (hrec : rec ≠ [])
    (acc : List (List Str)) (rest : Str) :
    tokenizeAux .startField [] rec acc (serField f ++ '\n' :: rest) =
      tokenizeAux .startField [] [] ((f :: rec).reverse :: acc) rest := by
  by_cases hq : needsQuote f = true
  · simp only [serField, if_pos hq, List.cons_append, List.append_assoc,
      List.singleton_append]
    rw [tok_start_quote, tok_inQuoted_escBody, tok_inQuoted_quote, List.nil_append,
      tok_qiq_newline]
    simp
  · have hq2 : needsQuote f = false := by
      cases hnq : needsQuote f
      · rfl
      · exact absurd hnq hq
    simp only [serField, hq2, Bool.false_eq_true, if_false]
    cases f with
    | nil => rw [List.nil_append, tok_start_newline_emit rec hrec]
    | cons c t =>
      have hmem := needsQuote_false_mem _ hq2
      have hc := hmem c (by simp)
      rw [List.cons_append, tok_start_char c hc.2.1 hc.1 hc.2.2.1 hc.2.2.2]
      rw [tok_inField_plain t (fun a ha => ⟨(hmem a (by simp [ha])).1,
        (hmem a (by simp [ha])).2.2.1, (hmem a (by simp [ha])).2.2.2⟩)]
      rw [tok_inField_newline]
      simp

theorem tok_serRowBody_tail (fs : List Str) (hfs : fs ≠ []) (rec : List Str)
    (hrec : rec ≠ []) (acc : List (List Str)) (rest : Str) :
    tokenizeAux .startField [] rec acc (serRowBody fs ++ '\n' :: rest) =
      tokenizeAux .startField [] [] ((rec.reverse ++ fs) :: acc) rest := by
  induction fs generalizing rec with
  | nil => exact absurd rfl hfs
  | cons f fs ih =>
    cases fs with
    | nil =>
      rw [show serRowBody [f] = serField f from rfl, tok_serField_newline f rec hrec]
      simp
    | cons f2 fs2 =>
      rw [show serRowBody (f :: f2 :: fs2) = serField f ++ ',' :: serRowBody (f2 :: fs2)
        from rfl]
      rw [List.append_assoc, List.cons_append, tok_serField_comma]
      rw [ih (by simp) (f :: rec) (by simp)]
      simp

theorem tok_serRow (f1 f2 : Str) (fs : List Str) (acc : List (List Str)) (rest : Str) :
    tokenizeAux .startField [] [] acc (serRow (f1 :: f2 :: fs) ++ rest) =
      tokenizeAux .startField [] [] ((f1 :: f2 :: fs) :: acc) rest := by
  rw [serRow, List.append_assoc, List.singleton_append]
  rw [show serRowBody (f1 :: f2 :: fs) = serField f1 ++ ',' :: serRowBody (f2 :: fs)
    from rfl]
  rw [List.append_assoc, List.cons_append, tok_serField_comma]
  rw [tok_serRowBody_tail (f2 :: fs) (by simp) [f1] (by simp)]
  rfl

theorem tokenizeCsv_two (a1 a2 : Str) (as2 : List Str) (b1 b2 : Str) (bs : List Str) :
    tokenizeCsv (serRow (a1 :: a2 :: as2) ++ serRow (b1 :: b2 :: bs)) =
      some [a1 :: a2 :: as2, b1 :: b2 :: bs] := by
  unfold tokenizeCsv
  rw [tok_serRow]
  have h2 := tok_serRow b1 b2 bs [a1 :: a2 :: as2] []
  rw [List.append_nil] at h2
  rw [h2]
  rfl

theorem plainField_parts (t : Str) (h : plainField t = true) :
    isNAtok t = false ∧ intLike (pyStrip t) = false ∧ floatLike (pyStrip t) = false ∧
      isBoolTok t = false := by
  simp only [plainField, Bool.and_eq_true, Bool.not_eq_true'] at h
  obtain ⟨⟨⟨h1, h2⟩, h3⟩, h4⟩ := h
  exact ⟨h1, h2, h3, h4⟩

theorem inferColumn_plain (t : Str) (h : plainField t = true) :
    inferColumn [t] = [Cell.str t] := by
  obtain ⟨h1, h2, h3, h4⟩ := plainField_parts t h
  simp [inferColumn, h1, h2, h3, h4]

theorem stripBOM_bom (x : Str) : stripBOM (bom ++ x) = x := by
  rfl

theorem wellShaped_fresh (r : DiaryRecord) : wellShaped expectedCols [fieldsList r] = true := by
  rw [wellShaped]
  rw [show (!expectedCols.any List.isEmpty) = true from by decide]
  rw [show (decide expectedCols.Nodup) = true from by decide]
  simp [fieldsList, expectedCols]

theorem read_csv_save_fresh (r : DiaryRecord)
    (h : ∀ f ∈ fieldsList r, plainField f = true) :
    read_csv (save_diary_to_csv none r) =
      .ok { cols := expectedCols, rows := [(fieldsList r).map Cell.str] } := by
  have hsave : save_diary_to_csv none r = bom ++ (headerLine ++ serRow (fieldsList r)) := by
    simp [save_diary_to_csv]
  have hrecs : tokenizeCsv (stripBOM (save_diary_to_csv none r)) =
      some [expectedCols, fieldsList r] := by
    rw [hsave, stripBOM_bom]
    rw [show headerLine = serRow expectedCols from rfl]
    exact tokenizeCsv_two (str "timestamp") (str "date")
      [str "student_id", str "mood", str "original_diary", str "corrected_diary",
       str "feedback_en", str "summary_ko"]
      r.timestamp r.date
      [r.student_id, r.mood, r.original_diary, r.corrected_diary, r.feedback_en,
       r.summary_ko]
  have h0 := inferColumn_plain r.timestamp (h _ (by simp [fieldsList]))
  have h1 := inferColumn_plain r.date (h _ (by simp [fieldsList]))
  have h2 := inferColumn_plain r.student_id (h _ (by simp [fieldsList]))
  have h3 := inferColumn_plain r.mood (h _ (by simp [fieldsList]))
  have h4 := inferColumn_plain r.original_diary (h _ (by simp [fieldsList]))
  have h5 := inferColumn_plain r.corrected_diary (h _ (by simp [fieldsList]))
  have h6 := inferColumn_plain r.feedback_en (h _ (by simp [fieldsList]))
  have h7 := inferColumn_plain r.summary_ko (h _ (by simp [fieldsList]))
  simp only [read_csv, hrecs, wellShaped_fresh, if_true]
  simp [expectedCols, fieldsList, List.range_succ, h0, h1, h2, h3, h4, h5, h6, h7]

/-! ### Supporting lemmas: ISO dates -/

theorem digitVal_digitChar (k : Nat) (h : k < 10) : digitVal (digitChar k) = k := by
  interval_cases k <;> decide

theorem isDigitB_digitChar (k : Nat) (h : k < 10) : isDigitB (digitChar k) = true := by
  interval_cases k <;> decide

theorem parseIsoDate_isoDateStr (y m d : Nat) (hy : y < 10000) (hm : m < 100)
    (hd : d < 100) : parseIsoDate (isoDateStr y m d) = some (y, m, d) := by
  have l10 : ∀ n k : Nat, 0 < k → n % k < k := fun n k hk => Nat.mod_lt n hk
  show parseIsoDate [digitChar (y / 1000 % 10), digitChar (y / 100 % 10),
    digitChar (y / 10 % 10), digitChar (y % 10), '-', digitChar (m / 10 % 10),
    digitChar (m % 10), '-', digitChar (d / 10 % 10), digitChar (d % 10)] = some (y, m, d)
  rw [parseIsoDate]
  rw [if_pos (by
    simp [List.all_cons, isDigitB_digitChar _ (l10 _ _ (by norm_num))])]
  simp only [natOfDigits, List.foldl, Option.some.injEq, Prod.mk.injEq]
  rw [digitVal_digitChar _ (l10 _ _ (by norm_num)), digitVal_digitChar _ (l10 _ _ (by norm_num)),
    digitVal_digitChar _ (l10 _ _ (by norm_num)), digitVal_digitChar _ (l10 _ _ (by norm_num)),
    digitVal_digitChar _ (l10 _ _ (by norm_num)), digitVal_digitChar _ (l10 _ _ (by norm_num)),
    digitVal_digitChar _ (l10 _ _ (by norm_num)), digitVal_digitChar _ (l10 _ _ (by norm_num))]
  refine ⟨?_, ?_, ?_⟩ <;> omega

/-! ### Supporting lemmas: column selection on a full frame -/

theorem select_expected_row (row : List Cell) :
    expectedCols.map (fun n => row.getD (colIdx expectedCols n) Cell.nan) =
      [row.getD 0 Cell.nan, row.getD 1 Cell.nan, row.getD 2 Cell.nan, row.getD 3 Cell.nan,
       row.getD 4 Cell.nan, row.getD 5 Cell.nan, row.getD 6 Cell.nan, row.getD 7 Cell.nan] := by
  have e : expectedCols = [str "timestamp", str "date", str "student_id", str "mood",
    str "original_diary", str "corrected_diary", str "feedback_en", str "summary_ko"] := rfl
  rw [e]
  simp only [List.map_cons, List.map_nil]
  rw [← e]
  rw [show colIdx expectedCols (str "timestamp") = 0 from by decide,
    show colIdx expectedCols (str "date") = 1 from by decide,
    show colIdx expectedCols (str "student_id") = 2 from by decide,
    show colIdx expectedCols (str "mood") = 3 from by decide,
    show colIdx expectedCols (str "original_diary") = 4 from by decide,
    show colIdx expectedCols (str "corrected_diary") = 5 from by decide,
    show colIdx expectedCols (str "feedback_en") = 6 from by decide,
    show colIdx expectedCols (str "summary_ko") = 7 from by decide]

theorem load_fresh (r : DiaryRecord)
    (h : ∀ f ∈ fieldsList r, plainField f = true) :
    load_diary_csv (some (save_diary_to_csv none r)) =
      .ok { cols := expectedCols, rows := [(fieldsList r).map Cell.str] } := by
  have hfilter : expectedCols.filter (fun c => decide (c ∉ expectedCols)) = [] := by decide
  have hsel := select_expected_row ((fieldsList r).map Cell.str)
  show (read_csv (save_diary_to_csv none r)).map
      (fun df => selectCols (addMissing df) expectedCols) = _
  rw [read_csv_save_fresh r h]
  show Except.ok (selectCols (addMissing
    { cols := expectedCols, rows := [(fieldsList r).map Cell.str] }) expectedCols) = _
  simp only [addMissing, selectCols, hfilter, List.map_nil, List.append_nil,
    List.map_cons, hsel]
  simp [fieldsList]

/-! ## Claim C1: the save/load round trip -/

/-- A record whose `summary_ko` is the empty string (a parse-failure field
is allowed to be empty). -/
def ceRecord : DiaryRecord :=
  { timestamp := str "2024-05-01T09:00:00", date := str "2024-05-01",
    student_id := str "Mina-03", mood := str "😊 Happy",
    original_diary := str "I was happy today!", corrected_diary := str "I was happy today.",
    feedback_en := str "Nice!", summary_ko := str "" }

/-- C1 is refuted as stated: appending `ceRecord` (whose `summary_ko` is the
empty string) to a fresh store and reloading yields `NaN` in the
`summary_ko` cell, not the original empty string — pandas turns empty fields
into missing values. -/
theorem c1_roundtrip_counterexample :
    ceRecord.summary_ko = str "" ∧
    load_diary_csv (some (save_diary_to_csv none ceRecord)) =
      .ok { cols := expectedCols,
            rows := [[Cell.str ceRecord.timestamp, Cell.str ceRecord.date,
              Cell.str ceRecord.student_id, Cell.str ceRecord.mood,
              Cell.str ceRecord.original_diary, Cell.str ceRecord.corrected_diary,
              Cell.str ceRecord.feedback_en, Cell.nan]] } ∧
    Cell.nan ≠ Cell.str ceRecord.summary_ko := by
  set_option maxRecDepth 16000 in decide

/-- C1 (amended): for every record whose eight fields are plain strings
(non-empty, not NA tokens, not integer-, float- or boolean-like, so that
pandas keeps them as strings), appending it to a fresh (absent) store and
reloading yields exactly one row whose eight cells are the original field
strings in canonical column order; and when the `date` field is the
`isoformat` of a calendar date, parsing the (identically reloaded) field
back yields that date. -/
theorem c1_roundtrip_plain_fields (r : DiaryRecord)
    (h : ∀ f ∈ fieldsList r, plainField f = true)
    (y m d : Nat) (hy : y < 10000) (hm : m < 100) (hd : d < 100)
    (hdate : r.date = isoDateStr y m d) :
    load_diary_csv (some (save_diary_to_csv none r)) =
      .ok { cols := expectedCols, rows := [(fieldsList r).map Cell.str] } ∧
    parseIsoDate r.date = some (y, m, d) := by
  refine ⟨load_fresh r h, ?_⟩
  rw [hdate]
  exact parseIsoDate_isoDateStr y m d hy hm hd

/-- A record with plain fields and an ISO date, used by the C1 witness. -/
def wRecord : DiaryRecord :=
  { timestamp := str "2024-05-01T09:00:00", date := isoDateStr 2024 5 1,
    student_id := str "Mina-03", mood := str "😊 Happy",
    original_diary := str "I was happy, she said \"hi\"!",
    corrected_diary := str "I was happy today.",
    feedback_en := str "Nice work!", summary_ko := str "좋아요." }

/-- Witness for C1 (amended) at a concrete record (whose original diary even
contains a comma and quotes, exercising the quoting path). -/
theorem c1_roundtrip_plain_fields_witness :
    ((∀ f ∈ fieldsList wRecord, plainField f = true) ∧
      2024 < 10000 ∧ 5 < 100 ∧ 1 < 100 ∧ wRecord.date = isoDateStr 2024 5 1) ∧
    (load_diary_csv (some (save_diary_to_csv none wRecord)) =
      .ok { cols := expectedCols, rows := [(fieldsList wRecord).map Cell.str] } ∧
    parseIsoDate wRecord.date = some (2024, 5, 1)) :=
  ⟨⟨by decide, by decide, by decide, by decide, rfl⟩,
    c1_roundtrip_plain_fields wRecord (by decide) 2024 5 1 (by decide) (by decide)
      (by decide) rfl⟩

/-! ### Supporting lemmas: loaded frames in general -/

/-- One named column of a loaded frame (the cells of `df[name]`). -/
def getColumn (fr : Frame) (n : Str) : List Cell :=
  fr.rows.map (fun row => row.getD (colIdx fr.cols n) Cell.nan)

theorem read_csv_ok_row_len (content : Str) (df : Frame) (h : read_csv content = .ok df) :
    ∀ row ∈ df.rows, row.length = df.cols.length := by
  unfold read_csv at h
  rcases hsp : tokenizeCsv (stripBOM content) with _ | (_ | ⟨hd, tl⟩)
  · rw [hsp] at h
    cases h
  · rw [hsp] at h
    cases h
  · simp only [hsp] at h
    split at h
    · injection h with h2
      subst h2
      intro row hrow
      rw [List.mem_map] at hrow
      obtain ⟨j, hj, hrow2⟩ := hrow
      rw [← hrow2]
      simp
    · cases h

theorem load_some_eq (content : Str) (df : Frame) (hread : read_csv content = .ok df) :
    load_diary_csv (some content) = .ok (selectCols (addMissing df) expectedCols) := by
  show (read_csv content).map (fun df2 => selectCols (addMissing df2) expectedCols) = _
  rw [hread]
  rfl

theorem map_getD_colIdx (names : List Str) (g : Str → Cell) (n : Str) (hn : n ∈ names)
    (dflt : Cell) : (names.map g).getD (colIdx names n) dflt = g n := by
  induction names with
  | nil => cases hn
  | cons m names ih =>
    by_cases hm : m = n
    · subst hm
      simp [colIdx, List.findIdx_cons]
    · have hn2 : n ∈ names := by
        rcases List.mem_cons.mp hn with h1 | h2
        · exact absurd h1.symm hm
        · exact h2
      rw [List.map_cons, colIdx, List.findIdx_cons]
      rw [show (decide (m = n)) = false from by simp [hm]]
      rw [show (bif false then 0 else (List.findIdx (fun c => decide (c = n)) names) + 1) =
        (List.findIdx (fun c => decide (c = n)) names) + 1 from rfl]
      rw [List.getD_cons_succ]
      exact ih hn2

theorem colIdx_append_right (A B : List Str) (n : Str) (hn : n ∉ A) :
    colIdx (A ++ B) n = A.length + colIdx B n := by
  induction A with
  | nil => simp
  | cons a A ih =>
    have ha : (decide (a = n)) = false := by
      simp only [decide_eq_false_iff_not]
      exact fun hh => hn (by simp [hh])
    rw [List.cons_append, colIdx, List.findIdx_cons, ha]
    rw [show (bif false then 0 else (List.findIdx (fun c => decide (c = n)) (A ++ B)) + 1) =
      (List.findIdx (fun c => decide (c = n)) (A ++ B)) + 1 from rfl]
    rw [show List.findIdx (fun c => decide (c = n)) (A ++ B) = colIdx (A ++ B) n from rfl]
    rw [ih (fun hh => hn (List.mem_cons_of_mem a hh))]
    simp [Nat.add_comm, Nat.add_assoc, Nat.add_left_comm]

theorem colIdx_lt_length (names : List Str) (n : Str) (hn : n ∈ names) :
    colIdx names n < names.length :=
  List.findIdx_lt_length_of_exists ⟨n, hn, by simp⟩

theorem getD_map_const_lt (L : List Str) (k : Nat) (hk : k < L.length) (c dflt : Cell) :
    (L.map (fun _ => c)).getD k dflt = c := by
  rw [List.getD_eq_getElem?_getD, List.getElem?_map]
  rw [List.getElem?_eq_getElem (by simpa using hk)]
  rfl

/-! ## Claim C5: missing columns are synthesized -/

/-- C5 is refuted as stated: an existing but empty store file is missing all
eight expected columns, yet `load_diary_csv` raises pandas' `EmptyDataError`
instead of returning an eight-column structure. -/
theorem c5_empty_file_counterexample :
    load_diary_csv (some (str "")) = .error emptyDataMsg := by
  decide

/-- C5 (amended): for every existing store file whose content `read_csv`
parses (non-empty, well-shaped; an empty file raises `EmptyDataError`
instead), the loaded structure has exactly the eight canonical columns in
order, and every expected column missing from the file comes back filled
with the empty string in every row. -/
theorem c5_missing_columns_synthesized (content : Str) (df : Frame)
    (hread : read_csv content = .ok df) :
    ∃ res, load_diary_csv (some content) = .ok res ∧ res.cols = expectedCols ∧
      ∀ n ∈ expectedCols, n ∉ df.cols →
        getColumn res n = List.replicate df.rows.length (Cell.str []) := by
  refine ⟨selectCols (addMissing df) expectedCols, load_some_eq content df hread, rfl, ?_⟩
  intro n hn hnin
  have hlen := read_csv_ok_row_len content df hread
  have hmiss : n ∈ expectedCols.filter (fun c => decide (c ∉ df.cols)) :=
    List.mem_filter.mpr ⟨hn, by simpa using hnin⟩
  unfold getColumn selectCols addMissing
  simp only [List.map_map]
  rw [show List.replicate df.rows.length (Cell.str []) =
    List.map (Function.const (List Cell) (Cell.str [])) df.rows from
    (List.map_const _ _).symm]
  apply List.map_congr_left
  intro row hrow
  simp only [Function.comp_apply, Function.const_apply]
  rw [map_getD_colIdx expectedCols _ n hn]
  rw [colIdx_append_right df.cols _ n hnin]
  rw [List.getD_append_right _ _ _ _ (by rw [hlen row hrow]; exact Nat.le_add_right _ _)]
  rw [hlen row hrow, Nat.add_sub_cancel_left]
  exact getD_map_const_lt _ _ (colIdx_lt_length _ n hmiss) _ _

/-- Store file content used by the C5 witness. -/
def c5File : Str := str "student_id,mood\nMina,Happy\n"

/-- Frame `read_csv` produces for `c5File`. -/
def c5Frame : Frame :=
  { cols := [str "student_id", str "mood"]
    rows := [[Cell.str (str "Mina"), Cell.str (str "Happy")]] }

/-- Witness for C5 (amended) at a concrete two-column store file. -/
theorem c5_missing_columns_synthesized_witness :
    read_csv c5File = .ok c5Frame ∧
    (∃ res, load_diary_csv (some c5File) = .ok res ∧ res.cols = expectedCols ∧
      ∀ n ∈ expectedCols, n ∉ c5Frame.cols →
        getColumn res n = List.replicate c5Frame.rows.length (Cell.str [])) :=
  ⟨by decide, c5_missing_columns_synthesized c5File c5Frame (by decide)⟩

/-! ## Claim C10: extra columns are dropped -/

/-- C10: whenever an existing store file parses and `load_diary_csv`
returns a structure, that structure's columns are exactly the eight
canonical ones, so any extra column of the file is absent from it. -/
theorem c10_extra_columns_dropped (content : Str) (df res : Frame)
    (hread : read_csv content = .ok df)
    (hload : load_diary_csv (some content) = .ok res) :
    res.cols = expectedCols ∧ ∀ n ∈ df.cols, n ∉ expectedCols → n ∉ res.cols := by
  rw [load_some_eq content df hread] at hload
  injection hload with h2
  constructor
  · rw [← h2]
    rfl
  · intro n hmem hnot hin
    rw [← h2] at hin
    exact hnot hin

/-- Store file content used by the C10 witness. -/
def c10File : Str := str "date,extra\n2024-01-01,x\n"

/-- Frame `read_csv` produces for `c10File`. -/
def c10Frame : Frame :=
  { cols := [str "date", str "extra"]
    rows := [[Cell.str (str "2024-01-01"), Cell.str (str "x")]] }

/-- Frame `load_diary_csv` returns for `c10File`: the extra column is gone. -/
def c10Loaded : Frame :=
  { cols := expectedCols
    rows := [[Cell.str [], Cell.str (str "2024-01-01"), Cell.str [], Cell.str [],
      Cell.str [], Cell.str [], Cell.str [], Cell.str []]] }

/-- Witness for C10 at a store file with an extra column. -/
theorem c10_extra_columns_dropped_witness :
    (read_csv c10File = .ok c10Frame ∧
      load_diary_csv (some c10File) = .ok c10Loaded) ∧
    (c10Loaded.cols = expectedCols ∧
      ∀ n ∈ c10Frame.cols, n ∉ expectedCols → n ∉ c10Loaded.cols) :=
  ⟨⟨by decide, by decide⟩,
    c10_extra_columns_dropped c10File c10Frame c10Loaded (by decide) (by decide)⟩
end EmotionDiary
